import Mathlib

/-!
Shallow embedding of the kirinyoku/sso-grpc authentication service.

Layers modelled, following the Go sources:
- domain models (internal/domain/models): `User`, `App`;
- the bcrypt collaborator (golang.org/x/crypto/bcrypt), modelled by its
  contract: `generateFromPassword` produces a salted hash and
  `compareHashAndPassword` succeeds exactly on the generating password;
- the jwt collaborator (internal/lib/jwt.NewToken over golang-jwt/v5):
  tokens are modelled structurally (header algorithm, claim list, signature);
  the HMAC-SHA-256 primitive and the base64url/JSON serialization are
  external library code, modelled as the formal constructor `MacSig.hs256`
  applied to the exact key and signed content, which preserves the
  key/payload binding the source establishes;
- storage sentinel errors (internal/storage): `StorageErr`;
- the sqlite store (internal/storage/sqlite): `dbSaveUser`, `dbUser`,
  `dbIsAdmin`, `dbApp` over an explicit database state `DB`;
- the auth service (internal/services/auth): `Auth.Register`, `Auth.Login`,
  `Auth.IsAdmin`, parameterized over an abstract `Storage` record mirroring
  the service's storage interface;
- the gRPC gateway (internal/grpc/auth/server.go): request validation and
  the handlers `Server.Register`, `Server.Login`, `Server.IsAdmin`,
  parameterized over an abstract `AuthSvc` record mirroring the gateway's
  Auth interface.

Wall-clock time is passed explicitly (`now`, Unix seconds); the token
lifetime `ttl` is in seconds. Error identity models Go's `errors.Is`:
wrapping with an operation-name breadcrumb preserves sentinel identity, so
errors are represented by their sentinel, and a non-sentinel storage
failure propagated by the service is `AuthErr.internal e`.
-/

namespace SSO

/-- Bcrypt hash model: the collaborator contract is that comparison succeeds
exactly against the generating password; the salt records that hashing is
salted (two hashes of one password may differ). -/
structure BcryptHash where
  pw : String
  salt : Nat
deriving DecidableEq

/-- Model of bcrypt.GenerateFromPassword (the cost parameter does not affect
functional behaviour and is omitted; the random salt is passed explicitly). -/
def generateFromPassword (password : String) (salt : Nat) : BcryptHash :=
  ⟨password, salt⟩

/-- Model of bcrypt.CompareHashAndPassword: true exactly when the password
matches the one the hash was generated from. -/
def compareHashAndPassword (hash : BcryptHash) (password : String) : Bool :=
  hash.pw == password

/-- User identity record (internal/domain/models/user.go). -/
structure User where
  ID : Int
  Email : String
  PassHash : BcryptHash
deriving DecidableEq

/-- Application (tenant) record (internal/domain/models/app.go). -/
structure App where
  ID : Int
  Name : String
  Secret : String
deriving DecidableEq

/-- Sentinel errors of the storage package (internal/storage), plus `other`
for any further infrastructure failure a store may report. -/
inductive StorageErr where
  | userExists
  | userNotFound
  | appNotFound
  | other (msg : String)
deriving DecidableEq

/-- Values appearing in JWT claims. -/
inductive ClaimVal where
  | int (i : Int)
  | str (s : String)
deriving DecidableEq

/-- Content covered by a token signature: the header algorithm and the claim
set (serialized as header.claims in the source; the serialization is
external library code and kept structural here). -/
structure TokenContent where
  alg : String
  claims : List (String × ClaimVal)
deriving DecidableEq

/-- Message-authentication signature, modelled as the formal application of
HMAC-SHA-256 to a key and the signed content. -/
inductive MacSig where
  | hs256 (key : String) (content : TokenContent)
deriving DecidableEq

/-- Signed JWT (structural model of the encoded three-segment token). -/
structure SignedToken where
  alg : String
  claims : List (String × ClaimVal)
  sig : MacSig
deriving DecidableEq

namespace Jwt

/-- Model of jwt.NewToken (internal/lib/jwt): builds an HS256 token whose
claims are user_id, app_id, email and exp = now + duration (Unix seconds),
signed with the application secret. -/
def NewToken (user : User) (app : App) (duration : Int) (now : Int) : SignedToken :=
  let claims : List (String × ClaimVal) :=
    [("user_id", .int user.ID), ("app_id", .int app.ID),
     ("email", .str user.Email), ("exp", .int (now + duration))]
  { alg := "HS256", claims := claims, sig := .hs256 app.Secret ⟨"HS256", claims⟩ }

end Jwt

/-- Storage interface consumed by the auth service
(internal/services/auth/auth.go, interface Storage); each operation either
succeeds or reports a `StorageErr`. -/
structure Storage where
  saveUser : String → BcryptHash → Except StorageErr Int
  user : String → Except StorageErr User
  isAdmin : Int → Except StorageErr Bool
  app : Int → Except StorageErr App

/-- Domain-layer sentinel errors of the auth service. `userNotFound` stands
for the sentinel the gateway references as auth.ErrUserNotFound
(internal/grpc/auth/server.go line 120); it is not defined in the given
services/auth source and is never produced by the service, and as a
value created by errors.New it is distinct from the storage sentinel of
the same message. -/
inductive DomainErr where
  | invalidCredentials
  | invalidAppID
  | userExists
  | userNotFound
deriving DecidableEq

/-- Error returned by the auth service: a domain sentinel, or a propagated
(wrapped) storage error, opaque to the transport layer. -/
inductive AuthErr where
  | domain (e : DomainErr)
  | internal (e : StorageErr)
deriving DecidableEq

namespace Auth

/-- Model of Auth.Register (internal/services/auth/auth.go): hashes the
password, saves the user; a store uniqueness violation becomes the
ErrUserExists domain error, any other store failure is propagated
(wrapped), and on success the store-assigned id is returned. -/
def Register (s : Storage) (salt : Nat) (email password : String) :
    Except AuthErr Int :=
  let passHash := generateFromPassword password salt
  match s.saveUser email passHash with
  | .error e =>
      if e = .userExists then .error (.domain .userExists)
      else .error (.internal e)
  | .ok userID => .ok userID

/-- Model of Auth.Login (internal/services/auth/auth.go): looks up the user
by email (not-found becomes ErrInvalidCredentials), verifies the password
(mismatch becomes ErrInvalidCredentials), resolves the application
(not-found becomes ErrInvalidCredentials), then issues a token. -/
def Login (s : Storage) (email password : String) (appID : Int)
    (now ttl : Int) : Except AuthErr SignedToken :=
  match s.user email with
  | .error e =>
      if e = .userNotFound then .error (.domain .invalidCredentials)
      else .error (.internal e)
  | .ok user =>
      if compareHashAndPassword user.PassHash password then
        match s.app appID with
        | .error e =>
            if e = .appNotFound then .error (.domain .invalidCredentials)
            else .error (.internal e)
        | .ok app => .ok (Jwt.NewToken user app ttl now)
      else .error (.domain .invalidCredentials)

/-- Model of Auth.IsAdmin (internal/services/auth/auth.go): queries the
store's admin flag; a store app-not-found error becomes ErrInvalidAppID and
any other store failure is propagated (wrapped). -/
def IsAdmin (s : Storage) (userID : Int) : Except AuthErr Bool :=
  match s.isAdmin userID with
  | .error e =>
      if e = .appNotFound then .error (.domain .invalidAppID)
      else .error (.internal e)
  | .ok b => .ok b

end Auth

/-- Row of the users table (schema: id, email UNIQUE, pass_hash, is_admin). -/
structure UserRow where
  id : Int
  email : String
  passHash : BcryptHash
  admin : Bool
deriving DecidableEq

/-- State of the sqlite database: the users and apps tables and the next
auto-increment id for users. -/
structure DB where
  users : List UserRow
  apps : List App
  nextId : Int
deriving DecidableEq

/-- Model of Storage.SaveUser (internal/storage/sqlite/sqlite.go): INSERT
INTO users; the UNIQUE constraint on email maps to ErrUserExists; on success
LastInsertId is returned together with the updated database state. -/
def dbSaveUser (db : DB) (email : String) (passHash : BcryptHash) :
    Except StorageErr (Int × DB) :=
  if db.users.any (fun u => u.email == email) then .error .userExists
  else
    .ok (db.nextId,
      { db with users := db.users ++ [⟨db.nextId, email, passHash, false⟩],
                nextId := db.nextId + 1 })

/-- Model of Storage.User (sqlite.go): SELECT id, email, pass_hash FROM users
WHERE email = ?; no row maps to ErrUserNotFound. -/
def dbUser (db : DB) (email : String) : Except StorageErr User :=
  match db.users.find? (fun u => u.email == email) with
  | none => .error .userNotFound
  | some u => .ok ⟨u.id, u.email, u.passHash⟩

/-- Model of Storage.IsAdmin (sqlite.go): SELECT is_admin FROM users WHERE
id = ?; no row maps to ErrUserNotFound. -/
def dbIsAdmin (db : DB) (userID : Int) : Except StorageErr Bool :=
  match db.users.find? (fun u => u.id == userID) with
  | none => .error .userNotFound
  | some u => .ok u.admin

/-- Model of Storage.App (sqlite.go): SELECT id, name, secret FROM apps WHERE
id = ?; no row maps to ErrAppNotFound. -/
def dbApp (db : DB) (appID : Int) : Except StorageErr App :=
  match db.apps.find? (fun a => a.ID == appID) with
  | none => .error .appNotFound
  | some a => .ok a

/-- The sqlite store viewed through the service's storage interface at a
fixed database state (read operations; SaveUser's state change is carried
separately by `Auth.RegisterDB`). -/
def dbStorage (db : DB) : Storage :=
  { saveUser := fun email h => (dbSaveUser db email h).map Prod.fst,
    user := dbUser db,
    isAdmin := dbIsAdmin db,
    app := dbApp db }

namespace Auth

/-- Auth.Register run against the sqlite store, with the database state
threaded explicitly so the committed row is visible to later calls. -/
def RegisterDB (db : DB) (salt : Nat) (email password : String) :
    Except AuthErr (Int × DB) :=
  let passHash := generateFromPassword password salt
  match dbSaveUser db email passHash with
  | .error e =>
      if e = .userExists then .error (.domain .userExists)
      else .error (.internal e)
  | .ok r => .ok r

end Auth

/-- Transport status of a failed gRPC call (google.golang.org/grpc/codes
with the attached message). -/
inductive GrpcErr where
  | invalidArgument (msg : String)
  | alreadyExists (msg : String)
  | notFound (msg : String)
  | internal (msg : String)
deriving DecidableEq

/-- RegisterRequest message fields. -/
structure RegisterRequest where
  email : String
  password : String
deriving DecidableEq

/-- LoginRequest message fields. -/
structure LoginRequest where
  email : String
  password : String
  appId : Int
deriving DecidableEq

/-- IsAdminRequest message fields. -/
structure IsAdminRequest where
  userId : Int
deriving DecidableEq

/-- Auth interface consumed by the gateway (internal/grpc/auth/server.go). -/
structure AuthSvc where
  register : String → String → Except AuthErr Int
  login : String → String → Int → Except AuthErr SignedToken
  isAdmin : Int → Except AuthErr Bool

/-- Model of validateRegisterRequest (server.go): empty email, then empty
password, are rejected as InvalidArgument. -/
def validateRegisterRequest (req : RegisterRequest) : Option GrpcErr :=
  if req.email = "" then some (.invalidArgument "email is required")
  else if req.password = "" then some (.invalidArgument "password is required")
  else none

/-- Model of validateLoginRequest (server.go): empty email, empty password,
then app_id equal to the zero value, are rejected as InvalidArgument. -/
def validateLoginRequest (req : LoginRequest) : Option GrpcErr :=
  if req.email = "" then some (.invalidArgument "email is required")
  else if req.password = "" then some (.invalidArgument "password is required")
  else if req.appId = 0 then some (.invalidArgument "app_id is required")
  else none

/-- Model of validateIsAdminRequest (server.go): user_id equal to the zero
value, then negative user_id, are rejected as InvalidArgument. -/
def validateIsAdminRequest (req : IsAdminRequest) : Option GrpcErr :=
  if req.userId = 0 then some (.invalidArgument "user_id is required")
  else if req.userId < 0 then some (.invalidArgument "invalid user_id")
  else none

namespace Server

/-- Model of server.Register (server.go): validate, call the service, map
ErrUserExists to AlreadyExists and any other failure to Internal. -/
def Register (auth : AuthSvc) (req : RegisterRequest) : Except GrpcErr Int :=
  match validateRegisterRequest req with
  | some e => .error e
  | none =>
      match auth.register req.email req.password with
      | .error err =>
          if err = .domain .userExists then
            .error (.alreadyExists "user already exists")
          else .error (.internal "internal error")
      | .ok userID => .ok userID

/-- Model of server.Login (server.go): validate, call the service, map
ErrInvalidCredentials and ErrInvalidAppID to InvalidArgument and any other
failure to Internal. -/
def Login (auth : AuthSvc) (req : LoginRequest) : Except GrpcErr SignedToken :=
  match validateLoginRequest req with
  | some e => .error e
  | none =>
      match auth.login req.email req.password req.appId with
      | .error err =>
          if err = .domain .invalidCredentials then
            .error (.invalidArgument "invalid credentials")
          else if err = .domain .invalidAppID then
            .error (.invalidArgument "invalid app ID")
          else .error (.internal "internal error")
      | .ok token => .ok token

/-- Model of server.IsAdmin (server.go): validate, call the service, map the
auth.ErrUserNotFound sentinel to NotFound and any other failure to
Internal. -/
def IsAdmin (auth : AuthSvc) (req : IsAdminRequest) : Except GrpcErr Bool :=
  match validateIsAdminRequest req with
  | some e => .error e
  | none =>
      match auth.isAdmin req.userId with
      | .error err =>
          if err = .domain .userNotFound then
            .error (.notFound "user not found")
          else .error (.internal "internal error")
      | .ok b => .ok b

end Server

/-- The full stack at a fixed database state: the gateway's service is the
auth service over the sqlite store (login and admin lookup read the state;
registration's state change is carried by `Auth.RegisterDB`). -/
def dbAuthSvc (db : DB) (salt : Nat) (now ttl : Int) : AuthSvc :=
  { register := fun email password => Auth.Register (dbStorage db) salt email password,
    login := fun email password appID =>
      Auth.Login (dbStorage db) email password appID now ttl,
    isAdmin := Auth.IsAdmin (dbStorage db) }

/-! Concrete database states and storages used by the witnesses. -/

/-- Empty database: no users, no apps, next id 1. -/
def dbEmpty : DB := ⟨[], [], 1⟩

/-- Database with one app (id 1) and no users. -/
def dbApp1 : DB := ⟨[], [⟨1, "test", "test-secret"⟩], 1⟩

/-- Database with one registered user (id 1, email a@example.com, password
Secret123! hashed with salt 5, not admin) and one app (id 1). -/
def dbOneUser : DB :=
  ⟨[⟨1, "a@example.com", generateFromPassword "Secret123!" 5, false⟩],
   [⟨1, "test", "test-secret"⟩], 2⟩

/-- Storage whose every operation fails with an infrastructure error,
modelling an unreachable database. -/
def downStorage : Storage :=
  { saveUser := fun _ _ => .error (.other "db down"),
    user := fun _ => .error (.other "db down"),
    isAdmin := fun _ => .error (.other "db down"),
    app := fun _ => .error (.other "db down") }

/-- C1: if the store's user lookup reports not-found, Login returns the
ErrInvalidCredentials domain error, and if the lookup succeeds but the
supplied password does not verify against the stored hash, Login returns the
same ErrInvalidCredentials error: the two failure causes produce the very
same error value, hence are indistinguishable by error type. -/
theorem C1_login_notfound_and_mismatch_same_error
    (s1 s2 : Storage) (email password : String) (appID now ttl : Int) (u : User)
    (h1 : s1.user email = .error .userNotFound)
    (h2 : s2.user email = .ok u)
    (h3 : compareHashAndPassword u.PassHash password = false) :
    Auth.Login s1 email password appID now ttl
      = .error (.domain .invalidCredentials) ∧
    Auth.Login s2 email password appID now ttl
      = .error (.domain .invalidCredentials) := by
  unfold Auth.Login
  rw [h1, h2]
  simp [h3]

/-- Witness for C1 at concrete inputs: an empty store (user lookup
not-found) and a store holding a user whose password is Secret123!, probed
with the wrong password. -/
theorem C1_witness :
    Auth.Login (dbStorage dbEmpty) "a@example.com" "wrong" 1 100 3600
      = .error (.domain .invalidCredentials) ∧
    Auth.Login (dbStorage dbOneUser) "a@example.com" "wrong" 1 100 3600
      = .error (.domain .invalidCredentials) :=
  ⟨(C1_login_notfound_and_mismatch_same_error (dbStorage dbEmpty)
      (dbStorage dbOneUser) "a@example.com" "wrong" 1 100 3600
      ⟨1, "a@example.com", generateFromPassword "Secret123!" 5⟩
      rfl rfl rfl).1,
   (C1_login_notfound_and_mismatch_same_error (dbStorage dbEmpty)
      (dbStorage dbOneUser) "a@example.com" "wrong" 1 100 3600
      ⟨1, "a@example.com", generateFromPassword "Secret123!" 5⟩
      rfl rfl rfl).2⟩

/-- C2: if the user lookup succeeds and the password verifies but the store
reports the application id not found, Login returns the
ErrInvalidCredentials domain error, not a distinct app-not-found error. -/
theorem C2_login_app_notfound_invalid_credentials
    (s : Storage) (email password : String) (appID now ttl : Int) (u : User)
    (h1 : s.user email = .ok u)
    (h2 : compareHashAndPassword u.PassHash password = true)
    (h3 : s.app appID = .error .appNotFound) :
    Auth.Login s email password appID now ttl
      = .error (.domain .invalidCredentials) := by
  unfold Auth.Login
  rw [h1]
  simp [h2, h3]

/-- Witness for C2: the one-user store probed with the correct password and
application id 42, which the store does not contain. -/
theorem C2_witness :
    Auth.Login (dbStorage dbOneUser) "a@example.com" "Secret123!" 42 100 3600
      = .error (.domain .invalidCredentials) :=
  C2_login_app_notfound_invalid_credentials (dbStorage dbOneUser)
    "a@example.com" "Secret123!" 42 100 3600
    ⟨1, "a@example.com", generateFromPassword "Secret123!" 5⟩ rfl rfl rfl

/-- C5: Register maps a store uniqueness violation to the ErrUserExists
domain error, propagates any other store failure as a non-domain (wrapped)
error, and on success returns exactly the identifier the store assigned. -/
theorem C5_register_error_mapping_and_id
    (s1 s2 s3 : Storage) (salt : Nat) (email password : String)
    (e : StorageErr) (id : Int)
    (h1 : s1.saveUser email (generateFromPassword password salt)
            = .error .userExists)
    (h2 : s2.saveUser email (generateFromPassword password salt) = .error e)
    (he : e ≠ .userExists)
    (h3 : s3.saveUser email (generateFromPassword password salt) = .ok id) :
    Auth.Register s1 salt email password = .error (.domain .userExists) ∧
    Auth.Register s2 salt email password = .error (.internal e) ∧
    Auth.Register s3 salt email password = .ok id := by
  simp only [Auth.Register, h1, h2, h3]
  simp [he]

/-- Witness for C5 at concrete inputs: re-registering the already present
email, registering against an unreachable store, and registering against the
empty store (which assigns id 1). -/
theorem C5_witness :
    Auth.Register (dbStorage dbOneUser) 5 "a@example.com" "Secret123!"
      = .error (.domain .userExists) ∧
    Auth.Register downStorage 5 "a@example.com" "Secret123!"
      = .error (.internal (.other "db down")) ∧
    Auth.Register (dbStorage dbEmpty) 5 "a@example.com" "Secret123!" = .ok 1 :=
  C5_register_error_mapping_and_id (dbStorage dbOneUser) downStorage
    (dbStorage dbEmpty) 5 "a@example.com" "Secret123!" (.other "db down") 1
    rfl rfl (by decide) rfl

/-- C7: every token built by the issuer carries the claims user_id (the
user's id), app_id (the application's id), email (the user's email) and exp
equal to issuance plus the configured lifetime (hence strictly later than
issuance when the lifetime is positive), and its signature is HMAC-SHA-256
keyed by the secret of the very application whose id is the app_id claim. -/
theorem C7_token_claims_and_key
    (user : User) (app : App) (ttl now : Int) :
    (Jwt.NewToken user app ttl now).claims.lookup "user_id"
      = some (.int user.ID) ∧
    (Jwt.NewToken user app ttl now).claims.lookup "app_id"
      = some (.int app.ID) ∧
    (Jwt.NewToken user app ttl now).claims.lookup "email"
      = some (.str user.Email) ∧
    (Jwt.NewToken user app ttl now).claims.lookup "exp"
      = some (.int (now + ttl)) ∧
    (0 < ttl → now < now + ttl) ∧
    (Jwt.NewToken user app ttl now).sig
      = .hs256 app.Secret ⟨(Jwt.NewToken user app ttl now).alg,
                           (Jwt.NewToken user app ttl now).claims⟩ := by
  refine ⟨rfl, rfl, rfl, rfl, fun h => ?_, rfl⟩
  omega

/-- Witness for C7 at a concrete user, application, lifetime 3600 and
issuance instant 1000. -/
theorem C7_witness :
    (Jwt.NewToken ⟨1, "a@example.com", generateFromPassword "Secret123!" 5⟩
        ⟨1, "test", "test-secret"⟩ 3600 1000).claims.lookup "exp"
      = some (.int 4600) ∧ (1000 : Int) < 1000 + 3600 :=
  ⟨(C7_token_claims_and_key
      ⟨1, "a@example.com", generateFromPassword "Secret123!" 5⟩
      ⟨1, "test", "test-secret"⟩ 3600 1000).2.2.2.1,
   (C7_token_claims_and_key
      ⟨1, "a@example.com", generateFromPassword "Secret123!" 5⟩
      ⟨1, "test", "test-secret"⟩ 3600 1000).2.2.2.2.1 (by decide)⟩

/-- C3 counterexample: against the sqlite store with no users, the store's
admin lookup for user id 1 reports that no user exists (ErrUserNotFound),
yet the service's IsAdmin does not return the ErrInvalidAppID domain error:
it propagates the store's user-not-found error as a non-domain (wrapped)
error, because the service only remaps the app-not-found sentinel, which the
store's admin lookup never reports. -/
theorem C3_counterexample :
    (dbStorage dbEmpty).isAdmin 1 = .error .userNotFound ∧
    Auth.IsAdmin (dbStorage dbEmpty) 1 ≠ .error (.domain .invalidAppID) ∧
    Auth.IsAdmin (dbStorage dbEmpty) 1 = .error (.internal .userNotFound) := by
  refine ⟨rfl, ?_, rfl⟩
  intro h
  simp [Auth.IsAdmin, dbStorage, dbIsAdmin, dbEmpty] at h

/-- C3 amended: when the store reports user-not-found from its admin lookup,
the service's IsAdmin propagates that storage error as a non-domain
(internal) error, not as ErrInvalidAppID; ErrInvalidAppID is returned
exactly when the store itself reports app-not-found, which the sqlite
store's admin lookup never does (it reports user-not-found for a missing
user). -/
theorem C3_isadmin_notfound_propagated
    (s1 s2 : Storage) (db : DB) (uid1 uid2 uid3 : Int)
    (h1 : s1.isAdmin uid1 = .error .userNotFound)
    (h2 : s2.isAdmin uid2 = .error .appNotFound)
    (h3 : db.users.find? (fun u => u.id == uid3) = none) :
    Auth.IsAdmin s1 uid1 = .error (.internal .userNotFound) ∧
    Auth.IsAdmin s1 uid1 ≠ .error (.domain .invalidAppID) ∧
    Auth.IsAdmin s2 uid2 = .error (.domain .invalidAppID) ∧
    (dbStorage db).isAdmin uid3 = .error .userNotFound := by
  refine ⟨?_, ?_, ?_, ?_⟩
  · simp [Auth.IsAdmin, h1]
  · simp [Auth.IsAdmin, h1]
  · simp [Auth.IsAdmin, h2]
  · simp [dbStorage, dbIsAdmin, h3]

/-- Witness for the amended C3: the empty sqlite store for the
user-not-found branch, and a storage reporting app-not-found for the
remapped branch. -/
theorem C3_witness :
    Auth.IsAdmin (dbStorage dbEmpty) 1 = .error (.internal .userNotFound) ∧
    Auth.IsAdmin
      { downStorage with isAdmin := fun _ => .error .appNotFound } 1
      = .error (.domain .invalidAppID) :=
  ⟨(C3_isadmin_notfound_propagated (dbStorage dbEmpty)
      { downStorage with isAdmin := fun _ => .error .appNotFound }
      dbEmpty 1 1 1 rfl rfl rfl).1,
   (C3_isadmin_notfound_propagated (dbStorage dbEmpty)
      { downStorage with isAdmin := fun _ => .error .appNotFound }
      dbEmpty 1 1 1 rfl rfl rfl).2.2.1⟩

/-- C4: evaluation of the full stack at the failing input. For the IsAdmin
request with user id 1 against a store containing no such user, the request
passes shape validation, the store reports user-not-found, and the gateway
returns the Internal status with message internal error instead of the
NotFound status with message user not found: the gateway's NotFound branch
tests a sentinel the service never returns (the service propagates the
storage error instead), so the branch is unreachable. -/
theorem C4_code_eval :
    validateIsAdminRequest ⟨1⟩ = none ∧
    (dbStorage dbEmpty).isAdmin 1 = .error .userNotFound ∧
    Server.IsAdmin (dbAuthSvc dbEmpty 0 0 3600) ⟨1⟩
      = .error (.internal "internal error") ∧
    Server.IsAdmin (dbAuthSvc dbEmpty 0 0 3600) ⟨1⟩
      ≠ .error (.notFound "user not found") := by
  refine ⟨rfl, rfl, rfl, ?_⟩
  intro h
  rw [show Server.IsAdmin (dbAuthSvc dbEmpty 0 0 3600) ⟨1⟩
        = .error (.internal "internal error") from rfl] at h
  simp at h

/-- C6: for shape-valid requests the gateway maps each domain error to its
transport status: ErrUserExists from Register to AlreadyExists,
ErrInvalidCredentials and ErrInvalidAppID from Login each to
InvalidArgument, and any propagated non-domain error from either operation
to Internal. -/
theorem C6_gateway_status_mapping
    (svc : AuthSvc) (rr : RegisterRequest) (lr : LoginRequest)
    (e1 e2 : StorageErr)
    (hr1 : rr.email ≠ "") (hr2 : rr.password ≠ "")
    (hl1 : lr.email ≠ "") (hl2 : lr.password ≠ "") (hl3 : lr.appId ≠ 0) :
    (svc.register rr.email rr.password = .error (.domain .userExists) →
      Server.Register svc rr = .error (.alreadyExists "user already exists")) ∧
    (svc.register rr.email rr.password = .error (.internal e1) →
      Server.Register svc rr = .error (.internal "internal error")) ∧
    (svc.login lr.email lr.password lr.appId
        = .error (.domain .invalidCredentials) →
      Server.Login svc lr = .error (.invalidArgument "invalid credentials")) ∧
    (svc.login lr.email lr.password lr.appId
        = .error (.domain .invalidAppID) →
      Server.Login svc lr = .error (.invalidArgument "invalid app ID")) ∧
    (svc.login lr.email lr.password lr.appId = .error (.internal e2) →
      Server.Login svc lr = .error (.internal "internal error")) := by
  refine ⟨fun h => ?_, fun h => ?_, fun h => ?_, fun h => ?_, fun h => ?_⟩ <;>
    simp [Server.Register, Server.Login, validateRegisterRequest,
      validateLoginRequest, hr1, hr2, hl1, hl2, hl3, h]

/-- Witness for C6 at concrete inputs: duplicate registration maps to
AlreadyExists, registration against an unreachable store maps to Internal,
a login password mismatch maps to InvalidArgument invalid credentials, an
invalid-app-id service outcome maps to InvalidArgument invalid app ID, and
a login against an unreachable store maps to Internal. -/
theorem C6_witness :
    Server.Register (dbAuthSvc dbOneUser 5 100 3600)
        ⟨"a@example.com", "Secret123!"⟩
      = .error (.alreadyExists "user already exists") ∧
    Server.Register
        { register := fun _ _ => .error (.internal (.other "db down")),
          login := fun _ _ _ => .error (.internal (.other "db down")),
          isAdmin := fun _ => .error (.internal (.other "db down")) }
        ⟨"a@example.com", "Secret123!"⟩
      = .error (.internal "internal error") ∧
    Server.Login (dbAuthSvc dbOneUser 5 100 3600)
        ⟨"a@example.com", "wrong", 1⟩
      = .error (.invalidArgument "invalid credentials") ∧
    Server.Login
        { register := fun _ _ => .error (.domain .invalidAppID),
          login := fun _ _ _ => .error (.domain .invalidAppID),
          isAdmin := fun _ => .error (.domain .invalidAppID) }
        ⟨"a@example.com", "Secret123!", 1⟩
      = .error (.invalidArgument "invalid app ID") ∧
    Server.Login
        { register := fun _ _ => .error (.internal (.other "db down")),
          login := fun _ _ _ => .error (.internal (.other "db down")),
          isAdmin := fun _ => .error (.internal (.other "db down")) }
        ⟨"a@example.com", "Secret123!", 1⟩
      = .error (.internal "internal error") := by
  refine ⟨?_, ?_, ?_, ?_, ?_⟩
  · exact (C6_gateway_status_mapping (dbAuthSvc dbOneUser 5 100 3600)
      ⟨"a@example.com", "Secret123!"⟩ ⟨"a@example.com", "wrong", 1⟩
      (.other "db down") (.other "db down")
      (by decide) (by decide) (by decide) (by decide) (by decide)).1 rfl
  · exact (C6_gateway_status_mapping
      { register := fun _ _ => .error (.internal (.other "db down")),
        login := fun _ _ _ => .error (.internal (.other "db down")),
        isAdmin := fun _ => .error (.internal (.other "db down")) }
      ⟨"a@example.com", "Secret123!"⟩ ⟨"a@example.com", "Secret123!", 1⟩
      (.other "db down") (.other "db down")
      (by decide) (by decide) (by decide) (by decide) (by decide)).2.1 rfl
  · exact (C6_gateway_status_mapping (dbAuthSvc dbOneUser 5 100 3600)
      ⟨"a@example.com", "Secret123!"⟩ ⟨"a@example.com", "wrong", 1⟩
      (.other "db down") (.other "db down")
      (by decide) (by decide) (by decide) (by decide) (by decide)).2.2.1 rfl
  · exact (C6_gateway_status_mapping
      { register := fun _ _ => .error (.domain .invalidAppID),
        login := fun _ _ _ => .error (.domain .invalidAppID),
        isAdmin := fun _ => .error (.domain .invalidAppID) }
      ⟨"a@example.com", "Secret123!"⟩ ⟨"a@example.com", "Secret123!", 1⟩
      (.other "db down") (.other "db down")
      (by decide) (by decide) (by decide) (by decide) (by decide)).2.2.2.1 rfl
  · exact (C6_gateway_status_mapping
      { register := fun _ _ => .error (.internal (.other "db down")),
        login := fun _ _ _ => .error (.internal (.other "db down")),
        isAdmin := fun _ => .error (.internal (.other "db down")) }
      ⟨"a@example.com", "Secret123!"⟩ ⟨"a@example.com", "Secret123!", 1⟩
      (.other "db down") (.other "db down")
      (by decide) (by decide) (by decide) (by decide) (by decide)).2.2.2.2 rfl

/-- C9: a Register or Login request with an empty email is rejected as
InvalidArgument email is required, and one with a non-empty email but empty
password as InvalidArgument password is required; in either case the
gateway's answer does not depend on the authentication service at all (the
core is never invoked), so no stored password hash is ever compared against
an empty password. -/
theorem C9_validation_before_core
    (svc svc2 : AuthSvc) (rr : RegisterRequest) (lr : LoginRequest) :
    (rr.email = "" →
      Server.Register svc rr = .error (.invalidArgument "email is required")) ∧
    (rr.email ≠ "" → rr.password = "" →
      Server.Register svc rr
        = .error (.invalidArgument "password is required")) ∧
    (rr.email = "" ∨ rr.password = "" →
      Server.Register svc rr = Server.Register svc2 rr) ∧
    (lr.email = "" →
      Server.Login svc lr = .error (.invalidArgument "email is required")) ∧
    (lr.email ≠ "" → lr.password = "" →
      Server.Login svc lr = .error (.invalidArgument "password is required")) ∧
    (lr.email = "" ∨ lr.password = "" →
      Server.Login svc lr = Server.Login svc2 lr) := by
  refine ⟨fun h => ?_, fun h h2 => ?_, fun h => ?_, fun h => ?_,
    fun h h2 => ?_, fun h => ?_⟩
  · simp [Server.Register, validateRegisterRequest, h]
  · simp [Server.Register, validateRegisterRequest, h, h2]
  · rcases h with h | h
    · simp [Server.Register, validateRegisterRequest, h]
    · by_cases he : rr.email = "" <;>
        simp [Server.Register, validateRegisterRequest, h, he]
  · simp [Server.Login, validateLoginRequest, h]
  · simp [Server.Login, validateLoginRequest, h, h2]
  · rcases h with h | h
    · simp [Server.Login, validateLoginRequest, h]
    · by_cases he : lr.email = "" <;>
        simp [Server.Login, validateLoginRequest, h, he]

/-- Witness for C9 at concrete inputs: empty-email and empty-password
requests are rejected with the corresponding message, and the answer is the
same over the live store and over an unreachable store. -/
theorem C9_witness :
    Server.Register (dbAuthSvc dbOneUser 5 100 3600) ⟨"", "Secret123!"⟩
      = .error (.invalidArgument "email is required") ∧
    Server.Register (dbAuthSvc dbOneUser 5 100 3600) ⟨"a@example.com", ""⟩
      = .error (.invalidArgument "password is required") ∧
    Server.Login (dbAuthSvc dbOneUser 5 100 3600) ⟨"", "Secret123!", 1⟩
      = .error (.invalidArgument "email is required") ∧
    Server.Login (dbAuthSvc dbOneUser 5 100 3600) ⟨"a@example.com", "", 1⟩
      = .error (.invalidArgument "password is required") ∧
    Server.Login (dbAuthSvc dbOneUser 5 100 3600) ⟨"a@example.com", "", 1⟩
      = Server.Login
          { register := fun _ _ => .error (.internal (.other "db down")),
            login := fun _ _ _ => .error (.internal (.other "db down")),
            isAdmin := fun _ => .error (.internal (.other "db down")) }
          ⟨"a@example.com", "", 1⟩ := by
  refine ⟨?_, ?_, ?_, ?_, ?_⟩
  · exact (C9_validation_before_core (dbAuthSvc dbOneUser 5 100 3600)
      (dbAuthSvc dbOneUser 5 100 3600) ⟨"", "Secret123!"⟩
      ⟨"", "Secret123!", 1⟩).1 rfl
  · exact (C9_validation_before_core (dbAuthSvc dbOneUser 5 100 3600)
      (dbAuthSvc dbOneUser 5 100 3600) ⟨"a@example.com", ""⟩
      ⟨"a@example.com", "", 1⟩).2.1 (by decide) rfl
  · exact (C9_validation_before_core (dbAuthSvc dbOneUser 5 100 3600)
      (dbAuthSvc dbOneUser 5 100 3600) ⟨"", "Secret123!"⟩
      ⟨"", "Secret123!", 1⟩).2.2.2.1 rfl
  · exact (C9_validation_before_core (dbAuthSvc dbOneUser 5 100 3600)
      (dbAuthSvc dbOneUser 5 100 3600) ⟨"a@example.com", ""⟩
      ⟨"a@example.com", "", 1⟩).2.2.2.2.1 (by decide) rfl
  · exact (C9_validation_before_core (dbAuthSvc dbOneUser 5 100 3600)
      { register := fun _ _ => .error (.internal (.other "db down")),
        login := fun _ _ _ => .error (.internal (.other "db down")),
        isAdmin := fun _ => .error (.internal (.other "db down")) }
      ⟨"a@example.com", ""⟩ ⟨"a@example.com", "", 1⟩).2.2.2.2.2
      (Or.inr rfl)

/-- Helper: the sqlite user lookup fails only with the user-not-found
sentinel. -/
theorem dbUser_error_userNotFound (db : DB) (email : String) (e : StorageErr)
    (h : dbUser db email = .error e) : e = .userNotFound := by
  unfold dbUser at h
  cases hf : db.users.find? (fun u => u.email == email) <;> rw [hf] at h <;>
    simp at h
  exact h.symm

/-- C10: a Login request with a negative app_id passes the gateway's shape
validation (only app_id equal to zero is rejected as app_id is required) and
reaches the core, and against a store in which every application id is
nonnegative the outcome is the invalid credentials error (status
InvalidArgument), not a validation error. -/
theorem C10_negative_appid_invalid_credentials
    (db : DB) (salt : Nat) (lr : LoginRequest) (now ttl : Int)
    (h1 : lr.email ≠ "") (h2 : lr.password ≠ "") (h3 : lr.appId < 0)
    (happs : ∀ a ∈ db.apps, 0 ≤ a.ID) :
    validateLoginRequest lr = none ∧
    Server.Login (dbAuthSvc db salt now ttl) lr
      = .error (.invalidArgument "invalid credentials") := by
  have hvalid : validateLoginRequest lr = none := by
    simp [validateLoginRequest, h1, h2]
    omega
  have happ : dbApp db lr.appId = .error .appNotFound := by
    unfold dbApp
    have hn : db.apps.find? (fun a => a.ID == lr.appId) = none := by
      rw [List.find?_eq_none]
      intro a ha
      have := happs a ha
      simp only [beq_iff_eq]
      omega
    rw [hn]
  have hlogin : Auth.Login (dbStorage db) lr.email lr.password lr.appId now ttl
      = .error (.domain .invalidCredentials) := by
    cases hu : dbUser db lr.email with
    | error e =>
        have he := dbUser_error_userNotFound db lr.email e hu
        subst he
        simp [Auth.Login, dbStorage, hu]
    | ok u =>
        by_cases hcmp : compareHashAndPassword u.PassHash lr.password
        · simp [Auth.Login, dbStorage, hu, hcmp, happ]
        · simp [Auth.Login, dbStorage, hu, hcmp]
  refine ⟨hvalid, ?_⟩
  simp [Server.Login, hvalid, dbAuthSvc, hlogin]

/-- Witness for C10: a request with app_id equal to minus one against the
store holding only the application with id 1. -/
theorem C10_witness :
    validateLoginRequest ⟨"a@example.com", "Secret123!", -1⟩ = none ∧
    Server.Login (dbAuthSvc dbOneUser 5 100 3600)
        ⟨"a@example.com", "Secret123!", -1⟩
      = .error (.invalidArgument "invalid credentials") :=
  C10_negative_appid_invalid_credentials dbOneUser 5
    ⟨"a@example.com", "Secret123!", -1⟩ 100 3600
    (by decide) (by decide) (by decide) (by decide)

/-- C8: against a store that has no user with the given email, Register with
a non-empty email and password succeeds, and a subsequent Login with the
same credentials and an application id the store resolves succeeds and
issues a token whose email and user_id claims are exactly the registered
email and the id Register returned. -/
theorem C8_register_then_login
    (db : DB) (salt : Nat) (email password : String) (appID now ttl : Int)
    (app : App)
    (hemail : email ≠ "") (hpw : password ≠ "")
    (hfree : ∀ u ∈ db.users, u.email ≠ email)
    (happ : dbApp db appID = .ok app) :
    ∃ id db2, Auth.RegisterDB db salt email password = .ok (id, db2) ∧
      ∃ tok, Auth.Login (dbStorage db2) email password appID now ttl
          = .ok tok ∧
        tok.claims.lookup "email" = some (.str email) ∧
        tok.claims.lookup "user_id" = some (.int id) := by
  have hany : db.users.any (fun u => u.email == email) = false := by
    rw [List.any_eq_false]
    intro u hu
    simp only [beq_iff_eq]
    exact hfree u hu
  have hsave : dbSaveUser db email (generateFromPassword password salt)
      = .ok (db.nextId,
          { db with
            users := db.users
              ++ [⟨db.nextId, email, generateFromPassword password salt, false⟩],
            nextId := db.nextId + 1 }) := by
    unfold dbSaveUser
    rw [hany]
    simp
  refine ⟨db.nextId,
    { db with
      users := db.users
        ++ [⟨db.nextId, email, generateFromPassword password salt, false⟩],
      nextId := db.nextId + 1 }, ?_, ?_⟩
  · simp [Auth.RegisterDB, hsave]
  · have hfind : List.find? (fun u => u.email == email)
        (db.users
          ++ [(⟨db.nextId, email, generateFromPassword password salt,
                false⟩ : UserRow)])
        = some ⟨db.nextId, email, generateFromPassword password salt, false⟩ := by
      rw [List.find?_append]
      have hnone : db.users.find? (fun u => u.email == email) = none := by
        rw [List.find?_eq_none]
        intro u hu
        simp only [beq_iff_eq]
        exact hfree u hu
      rw [hnone]
      simp [List.find?]
    have huser : dbUser
        { db with
          users := db.users
            ++ [⟨db.nextId, email, generateFromPassword password salt, false⟩],
          nextId := db.nextId + 1 } email
        = .ok ⟨db.nextId, email, generateFromPassword password salt⟩ := by
      unfold dbUser
      simp only
      rw [hfind]
    have happ2 : dbApp
        { db with
          users := db.users
            ++ [⟨db.nextId, email, generateFromPassword password salt, false⟩],
          nextId := db.nextId + 1 } appID = .ok app := by
      unfold dbApp at happ ⊢
      exact happ
    refine ⟨Jwt.NewToken ⟨db.nextId, email, generateFromPassword password salt⟩
        app ttl now, ?_, ?_, ?_⟩
    · simp only [Auth.Login, dbStorage]
      rw [huser, happ2]
      simp [compareHashAndPassword, generateFromPassword]
    · simp [Jwt.NewToken, List.lookup]
    · simp [Jwt.NewToken, List.lookup]

/-- Witness for C8: registering alice@example.com with password Secret123!
against the store holding only application 1 and no users, then logging in
with the same pair and application id 1. -/
theorem C8_witness :
    ∃ id db2,
      Auth.RegisterDB dbApp1 5 "alice@example.com" "Secret123!"
        = .ok (id, db2) ∧
      ∃ tok,
        Auth.Login (dbStorage db2) "alice@example.com" "Secret123!" 1 100 3600
          = .ok tok ∧
        tok.claims.lookup "email" = some (.str "alice@example.com") ∧
        tok.claims.lookup "user_id" = some (.int id) :=
  C8_register_then_login dbApp1 5 "alice@example.com" "Secret123!" 1 100 3600
    ⟨1, "test", "test-secret"⟩ (by decide) (by decide)
    (by intro u hu; simp [dbApp1] at hu) rfl

end SSO
